import Mathlib

/-!
Shallow embedding of the hotel-chatbot repository
(`app.py`, `twilioo.py`, `postmark.py`).

The repository handles each HTTP request (or UI submission) by a straight-line
flow: validate inputs, classify the query with a hosted LLM, resolve a context
string (either from the `room_data` SQLite table or a hard-coded constant),
and call the LLM again to generate the reply.

Modelling choices:
* The `room_data` table is a list of `Room` rows (`Table`); the order of the
  list is the order in which `SELECT title, description FROM room_data`
  returns the rows.
* The external LLM is an oracle: the classifier result is an input parameter
  of each handler (the value of `classify_query`, post-`strip`), and the
  generator is an input function `gen : String → String → String` from
  (query, context) to reply text.
* Every handler returns a `Run α`: the table after the request, the list of
  SQL commands it executed in order, the list of external API calls it made
  in order, and its HTTP/UI outcome.  "The generator was invoked with context
  c" is membership of `ApiCall.generate q c` in the call list.
* Python truthiness on an optional string (`if not x` after `dict.get` /
  `form.get`) is `pyTruthy`: `None` and `""` are falsy.
-/

/-- One row of the `room_data` table (`title TEXT UNIQUE, description TEXT`);
the integer autoincrement id never flows into the request logic and is omitted. -/
structure Room where
  title : String
  description : String
deriving DecidableEq, Repr

/-- The contents of the `room_data` table, in the order the table returns rows. -/
abbrev Table := List Room

/-- Python truthiness of `dict.get(k)` / `form.get(k)` results:
`None` (key missing) and the empty string are falsy. -/
def pyTruthy : Option String → Bool
  | none => false
  | some s => !(s == "")

/-- SQL commands against the `room_data` table.  The request handlers only
ever issue `selectTitleDescription`; the write commands exist so that
"issues no write" is a statement about a semantics that has writes. -/
inductive SqlCmd where
  | createRoomTable : SqlCmd
  | selectCount : SqlCmd
  | selectTitleDescription : SqlCmd
  | insertRoom : String → String → SqlCmd
  | updateRoom : String → String → SqlCmd
  | deleteRoom : String → SqlCmd
deriving DecidableEq, Repr

/-- Effect of a command on the table contents.  `CREATE TABLE IF NOT EXISTS`
and the two selects leave the rows unchanged; the write commands change them. -/
def SqlCmd.applyTable : SqlCmd → Table → Table
  | .createRoomTable, t => t
  | .selectCount, t => t
  | .selectTitleDescription, t => t
  | .insertRoom ti d, t => t ++ [⟨ti, d⟩]
  | .updateRoom ti d, t => t.map fun r => if r.title == ti then ⟨ti, d⟩ else r
  | .deleteRoom ti, t => t.filter fun r => !(r.title == ti)

/-- Result set of a command: only `SELECT title, description` returns rows. -/
def SqlCmd.resultRows : SqlCmd → Table → List Room
  | .selectTitleDescription, t => t
  | _, _ => []

/-- Whether a command mutates the table. -/
def SqlCmd.isWrite : SqlCmd → Bool
  | .insertRoom _ _ => true
  | .updateRoom _ _ => true
  | .deleteRoom _ => true
  | _ => false

/-- External API calls a handler can make, in the order they happen. -/
inductive ApiCall where
  | classify : String → ApiCall
  | generate : String → String → ApiCall
  | postmarkSend : String → String → String → ApiCall
deriving DecidableEq, Repr

/-- The context strings handed to the response generator, in call order. -/
def generateContexts (calls : List ApiCall) : List String :=
  calls.filterMap fun c =>
    match c with
    | ApiCall.generate _ ctx => some ctx
    | _ => none

/-- Trace of one request: table after handling, SQL commands issued,
external API calls issued, and the surface-specific outcome. -/
structure Run (α : Type) where
  table : Table
  sql : List SqlCmd
  calls : List ApiCall
  outcome : α
deriving DecidableEq, Repr

/-- The f-string block both `fetch_room_details` implementations build per row:
`f"Room: {title}\nDescription: {description}"`. -/
def roomBlock (r : Room) : String :=
  "Room: " ++ r.title ++ "\nDescription: " ++ r.description

namespace Twilioo

/-- `HOTEL_INFO` of `twilioo.py` (line 29): a single-line truncated constant. -/
def HOTEL_INFO : String :=
  "Thira Beach Home is a luxurious seaside retreat that seamlessly blends Italian-Kerala heritage architecture with modern luxury..."

/-- `fetch_room_details` of `twilioo.py` (lines 36-44): select all rows;
if the result list is truthy (non-empty) join the per-row blocks with a blank
line, else return the fixed fallback string. -/
def fetch_room_details (t : Table) : Run String :=
  let rows := SqlCmd.selectTitleDescription.resultRows t
  { table := SqlCmd.selectTitleDescription.applyTable t
    sql := [SqlCmd.selectTitleDescription]
    calls := []
    outcome :=
      if !rows.isEmpty then
        String.intercalate "\n\n" (rows.map roomBlock)
      else
        "No room details available." }

/-- JSON bodies `/query` can answer with. -/
inductive QueryJson where
  | response : String → QueryJson
  | error : String → QueryJson
deriving DecidableEq, Repr

/-- `handle_query` of `twilioo.py` (lines 75-93).  `query` is
`data.get('query', '')`; `query_type` is the classifier oracle result for it. -/
def handle_query (t : Table) (query : String) (query_type : String)
    (gen : String → String → String) : Run (Nat × QueryJson) :=
  if query == "" then
    { table := t, sql := [], calls := []
      outcome := (400, QueryJson.error "Query parameter is required") }
  else if query_type == "1" then
    let fr := fetch_room_details t
    { table := fr.table, sql := fr.sql
      calls := [ApiCall.classify query, ApiCall.generate query fr.outcome]
      outcome := (200, QueryJson.response (gen query fr.outcome)) }
  else if query_type == "2" then
    { table := t, sql := []
      calls := [ApiCall.classify query, ApiCall.generate query HOTEL_INFO]
      outcome := (200, QueryJson.response (gen query HOTEL_INFO)) }
  else
    { table := t, sql := [], calls := [ApiCall.classify query]
      outcome := (500, QueryJson.error "Invalid query classification") }

/-- Replies the webhook can produce: the literal 400 XML string, or a
message wrapped in the provider reply envelope and returned with 200. -/
inductive WebhookOutcome where
  | xmlError : String → WebhookOutcome
  | twimlMessage : String → WebhookOutcome
deriving DecidableEq, Repr

/-- HTTP status attached to each webhook outcome in the source
(400 at line 102, 200 at line 117). -/
def webhookStatus : WebhookOutcome → Nat
  | .xmlError _ => 400
  | .twimlMessage _ => 200

/-- `twilio_webhook` of `twilioo.py` (lines 96-117).  `phone_number` and
`message_body` are `form.get` results (`none` when the field is missing);
`query_type` is the classifier oracle result for the message body. -/
def twilio_webhook (t : Table) (phone_number message_body : Option String)
    (query_type : String) (gen : String → String → String) : Run WebhookOutcome :=
  if !pyTruthy phone_number || !pyTruthy message_body then
    { table := t, sql := [], calls := []
      outcome := WebhookOutcome.xmlError
        "<Response><Message>Error: Phone number and message are required.</Message></Response>" }
  else
    let body := message_body.getD ""
    if query_type == "1" then
      let fr := fetch_room_details t
      let details := fr.outcome
      if !(details == "") then
        { table := fr.table, sql := fr.sql
          calls := [ApiCall.classify body, ApiCall.generate body details]
          outcome := WebhookOutcome.twimlMessage (gen body details) }
      else
        { table := fr.table, sql := fr.sql, calls := [ApiCall.classify body]
          outcome := WebhookOutcome.twimlMessage "No details found for that number." }
    else if query_type == "2" then
      { table := t, sql := []
        calls := [ApiCall.classify body, ApiCall.generate body HOTEL_INFO]
        outcome := WebhookOutcome.twimlMessage (gen body HOTEL_INFO) }
    else
      { table := t, sql := [], calls := [ApiCall.classify body]
        outcome := WebhookOutcome.twimlMessage "Unable to classify your query." }

end Twilioo

namespace App

/-- `HOTEL_INFO` of `app.py` (lines 20-54): triple-quoted, so the constant
starts and ends with a newline; the first paragraph ends with a trailing
space before its newline, as in the source. -/
def HOTEL_INFO : String :=
"
Thira Beach Home is a luxurious seaside retreat that seamlessly blends Italian-Kerala heritage architecture with modern luxury, creating an unforgettable experience. Nestled just 150 meters from the magnificent Arabian Sea, our beachfront property offers a secluded and serene escape with breathtaking 180-degree ocean views. 

The accommodations feature Kerala-styled heat-resistant tiled roofs, natural stone floors, and lime-plastered walls, ensuring a perfect harmony of comfort and elegance. Each of our Luxury Ocean View Rooms is designed to provide an exceptional stay, featuring a spacious 6x6.5 ft cot with a 10-inch branded mattress encased in a bamboo-knitted outer layer for supreme comfort.

Our facilities include:
- Personalized climate control with air conditioning and ceiling fans
- Wardrobe and wall mirror
- Table with attached drawer and two chairs
- Additional window bay bed for relaxation
- 43-inch 4K television
- Luxury bathroom with body jets, glass roof, and oval-shaped bathtub
- Total room area of 250 sq. ft.

Modern amenities:
- RO and UV-filtered drinking water
- 24/7 hot water
- Water processing unit with softened water
- Uninterrupted power backup
- High-speed internet with WiFi
- Security with CCTV surveillance
- Electric charging facility
- Accessible design for differently-abled persons

Additional services:
- Yoga classes
- Cycling opportunities
- On-site dining at Samudrakani Kitchen
- Stylish lounge and dining area
- Long veranda with ocean views

Location: Kothakulam Beach, Valappad, Thrissur, Kerala
Contact: +91-94470 44788
Email: thirabeachhomestay@gmail.com
"

/-- `fetch_room_details` of `app.py` (lines 109-137).  `connOk` models whether
`sqlite3.connect` succeeds (`connect_to_db` returning a connection vs `None`);
in the embedding the SELECT on the modelled table cannot itself raise, so the
`except sqlite3.Error` branch (line 132) is unreachable and not represented. -/
def fetch_room_details (connOk : Bool) (t : Table) : Run String :=
  if !connOk then
    { table := t, sql := [], calls := []
      outcome := "Unable to fetch room details due to database connection error." }
  else
    let rows := SqlCmd.selectTitleDescription.resultRows t
    { table := SqlCmd.selectTitleDescription.applyTable t
      sql := [SqlCmd.selectTitleDescription]
      calls := []
      outcome :=
        if !rows.isEmpty then
          String.intercalate "\n\n" (rows.map roomBlock)
        else
          "No room details available." }

/-- What the Streamlit page shows after a submission. -/
inductive AppOutcome where
  | uiError : String → AppOutcome
  | uiResponse : String → AppOutcome
deriving DecidableEq, Repr

/-- Whether the page shows an error (`st.error`) rather than a reply. -/
def AppOutcome.isUiError : AppOutcome → Bool
  | .uiError _ => true
  | .uiResponse _ => false

/-- The submit-button flow of `main` in `app.py` (lines 212-244).  `query` is
the text-area content; `query_type` is the value of `classify_query`
(`none` when it returned `None` on an API exception, line 167). -/
def main (connOk : Bool) (t : Table) (query : String) (query_type : Option String)
    (gen : String → String → String) : Run AppOutcome :=
  if query == "" then
    { table := t, sql := [], calls := []
      outcome := AppOutcome.uiError "Please enter a query before submitting." }
  else if !pyTruthy query_type then
    { table := t, sql := [], calls := [ApiCall.classify query]
      outcome := AppOutcome.uiError "Failed to classify your query. Please try again." }
  else if query_type == some "1" then
    let fr := fetch_room_details connOk t
    { table := fr.table, sql := fr.sql
      calls := [ApiCall.classify query, ApiCall.generate query fr.outcome]
      outcome := AppOutcome.uiResponse (gen query fr.outcome) }
  else if query_type == some "2" then
    { table := t, sql := []
      calls := [ApiCall.classify query, ApiCall.generate query HOTEL_INFO]
      outcome := AppOutcome.uiResponse (gen query HOTEL_INFO) }
  else
    { table := t, sql := [], calls := [ApiCall.classify query]
      outcome := AppOutcome.uiError "Invalid query classification. Please try again." }

end App

namespace Postmark

/-- JSON bodies `/send_email` can answer with: the 400 validation error,
or `send_email` results (`success`/`error` keys) relayed with 200. -/
inductive EmailJson where
  | fieldError : String → EmailJson
  | success : String → EmailJson
  | sendFailure : String → EmailJson
deriving DecidableEq, Repr

/-- `send_email` of `postmark.py` (lines 19-37): posts to the Postmark API and
maps its HTTP status to a success or failure dictionary.  The upstream status
and response text are oracle inputs. -/
def send_email (to_email subject body : String)
    (postmarkStatus : Nat) (postmarkText : String) : List ApiCall × EmailJson :=
  ([ApiCall.postmarkSend to_email subject body],
    if postmarkStatus == 200 then
      EmailJson.success "Email sent successfully"
    else
      EmailJson.sendFailure postmarkText)

/-- `handle_send_email` of `postmark.py` (lines 39-50).  `email`, `subject`,
`body` are the JSON fields (`none` when absent); the subject and body defaults
come from `data.get` with a default argument, so they apply only when the key
is missing.  Returns (API calls made, HTTP status, JSON body). -/
def handle_send_email (email subject body : Option String)
    (postmarkStatus : Nat) (postmarkText : String) : List ApiCall × Nat × EmailJson :=
  let subjectVal := subject.getD "Room Availability at Thira Beach Home"
  let bodyVal := body.getD "Here are the details of the available rooms."
  if !pyTruthy email then
    ([], 400, EmailJson.fieldError "Email is required")
  else
    let r := send_email (email.getD "") subjectVal bodyVal postmarkStatus postmarkText
    (r.1, 200, r.2)

end Postmark

/-! ## Helper lemmas -/

/-- Truthiness of a present field is plain string non-emptiness. -/
theorem pyTruthy_some (s : String) : pyTruthy (some s) = !(s == "") := rfl

/-- The accumulator of `String.intercalate.go` is never shortened. -/
theorem intercalate_go_length_le (s : String) (l : List String) :
    ∀ acc : String, acc.length ≤ (String.intercalate.go acc s l).length := by
  induction l with
  | nil => intro acc; simp [String.intercalate.go]
  | cons a as ih =>
    intro acc
    calc acc.length ≤ (acc ++ s ++ a).length := by simp; omega
      _ ≤ _ := by simpa [String.intercalate.go] using ih (acc ++ s ++ a)

/-- A formatted room block is non-empty (it starts with "Room: "). -/
theorem roomBlock_length_pos (r : Room) : 0 < (roomBlock r).length := by
  have h : (0 : Nat) < ("Room: " : String).length := by decide
  simp only [roomBlock, String.length_append]
  omega

/-- The joined room description of a non-empty table is a non-empty string,
so the webhook's `if details` test always takes the truthy branch. -/
theorem roomDetails_cons_ne_empty (r : Room) (rs : List Room) :
    String.intercalate "\n\n" ((r :: rs).map roomBlock) ≠ "" := by
  intro h
  have h1 : (roomBlock r).length ≤
      (String.intercalate "\n\n" ((r :: rs).map roomBlock)).length := by
    simpa [String.intercalate] using
      intercalate_go_length_le "\n\n" (rs.map roomBlock) (roomBlock r)
  rw [h] at h1
  have h2 := roomBlock_length_pos r
  have h3 : ("" : String).length = 0 := by decide
  omega

/-! ## Claims -/

/-- Claim C1: for every query whose classifier result is "1" and a non-empty
room table, the context string passed to the response generator equals the rows
of room_data, each formatted as "Room: <title>\nDescription: <description>",
joined by a blank line ("\n\n" separator), in the order the table returns them
— on the /query endpoint, on the UI flow, and on the messaging webhook. -/
theorem claim_C1_room_context (t : Table) (query : String) (phone : Option String)
    (gen : String → String → String) (hq : query ≠ "") (ht : t ≠ [])
    (hp : pyTruthy phone = true) :
    generateContexts (Twilioo.handle_query t query "1" gen).calls
        = [String.intercalate "\n\n" (t.map roomBlock)]
    ∧ generateContexts (App.main true t query (some "1") gen).calls
        = [String.intercalate "\n\n" (t.map roomBlock)]
    ∧ generateContexts (Twilioo.twilio_webhook t phone (some query) "1" gen).calls
        = [String.intercalate "\n\n" (t.map roomBlock)] := by
  obtain ⟨r, rs, rfl⟩ : ∃ r rs, t = r :: rs := by
    cases t with
    | nil => exact absurd rfl ht
    | cons r rs => exact ⟨r, rs, rfl⟩
  have hne := roomDetails_cons_ne_empty r rs
  simp only [List.map_cons] at hne
  refine ⟨?_, ?_, ?_⟩ <;>
    simp [Twilioo.handle_query, App.main, Twilioo.twilio_webhook,
      Twilioo.fetch_room_details, App.fetch_room_details, SqlCmd.resultRows,
      generateContexts, pyTruthy_some, hq, hp, hne]

theorem claim_C1_witness :
    generateContexts (Twilioo.handle_query [⟨"Deluxe", "Sea view"⟩] "book a room" "1"
        (fun _ c => c)).calls
      = [String.intercalate "\n\n" (([⟨"Deluxe", "Sea view"⟩] : Table).map roomBlock)]
    ∧ generateContexts (App.main true [⟨"Deluxe", "Sea view"⟩] "book a room" (some "1")
        (fun _ c => c)).calls
      = [String.intercalate "\n\n" (([⟨"Deluxe", "Sea view"⟩] : Table).map roomBlock)]
    ∧ generateContexts (Twilioo.twilio_webhook [⟨"Deluxe", "Sea view"⟩] (some "+10000000000")
        (some "book a room") "1" (fun _ c => c)).calls
      = [String.intercalate "\n\n" (([⟨"Deluxe", "Sea view"⟩] : Table).map roomBlock)] :=
  claim_C1_room_context [⟨"Deluxe", "Sea view"⟩] "book a room" (some "+10000000000")
    (fun _ c => c) (by decide) (by decide) (by decide)

/-- Claim C2: for every query whose classifier result is "2", the context
passed to the response generator is exactly the hard-coded hotel-description
constant of the respective delivery surface (`app.py`'s `HOTEL_INFO` on the UI
flow, `twilioo.py`'s `HOTEL_INFO` on /query and on the webhook). -/
theorem claim_C2_hotel_info_context (connOk : Bool) (t : Table) (query : String)
    (phone : Option String) (gen : String → String → String)
    (hq : query ≠ "") (hp : pyTruthy phone = true) :
    generateContexts (Twilioo.handle_query t query "2" gen).calls = [Twilioo.HOTEL_INFO]
    ∧ generateContexts (App.main connOk t query (some "2") gen).calls = [App.HOTEL_INFO]
    ∧ generateContexts (Twilioo.twilio_webhook t phone (some query) "2" gen).calls
        = [Twilioo.HOTEL_INFO] := by
  refine ⟨?_, ?_, ?_⟩ <;>
    simp [Twilioo.handle_query, App.main, Twilioo.twilio_webhook,
      generateContexts, pyTruthy_some, hq, hp]

theorem claim_C2_witness :
    generateContexts (Twilioo.handle_query [] "what are your amenities" "2"
        (fun _ c => c)).calls = [Twilioo.HOTEL_INFO]
    ∧ generateContexts (App.main false [] "what are your amenities" (some "2")
        (fun _ c => c)).calls = [App.HOTEL_INFO]
    ∧ generateContexts (Twilioo.twilio_webhook [] (some "+10000000000")
        (some "what are your amenities") "2" (fun _ c => c)).calls = [Twilioo.HOTEL_INFO] :=
  claim_C2_hotel_info_context false [] "what are your amenities" (some "+10000000000")
    (fun _ c => c) (by decide) (by decide)

/-- Claim C3: for every query classified as "1", an empty room table makes the
context passed to the response generator the literal string
"No room details available." — stated for both `fetch_room_details`
implementations and for the three flows that call them. -/
theorem claim_C3_empty_table_fallback (query : String) (phone : Option String)
    (gen : String → String → String) (hq : query ≠ "") (hp : pyTruthy phone = true) :
    (Twilioo.fetch_room_details []).outcome = "No room details available."
    ∧ (App.fetch_room_details true []).outcome = "No room details available."
    ∧ generateContexts (Twilioo.handle_query [] query "1" gen).calls
        = ["No room details available."]
    ∧ generateContexts (App.main true [] query (some "1") gen).calls
        = ["No room details available."]
    ∧ generateContexts (Twilioo.twilio_webhook [] phone (some query) "1" gen).calls
        = ["No room details available."] := by
  refine ⟨rfl, rfl, ?_, ?_, ?_⟩ <;>
    simp [Twilioo.handle_query, App.main, Twilioo.twilio_webhook,
      Twilioo.fetch_room_details, App.fetch_room_details, SqlCmd.resultRows,
      generateContexts, pyTruthy_some, hq, hp]

theorem claim_C3_witness :
    (Twilioo.fetch_room_details []).outcome = "No room details available."
    ∧ (App.fetch_room_details true []).outcome = "No room details available."
    ∧ generateContexts (Twilioo.handle_query [] "book a room" "1"
        (fun _ c => c)).calls = ["No room details available."]
    ∧ generateContexts (App.main true [] "book a room" (some "1")
        (fun _ c => c)).calls = ["No room details available."]
    ∧ generateContexts (Twilioo.twilio_webhook [] (some "+10000000000")
        (some "book a room") "1" (fun _ c => c)).calls = ["No room details available."] :=
  claim_C3_empty_table_fallback "book a room" (some "+10000000000")
    (fun _ c => c) (by decide) (by decide)

/-- Claim C4: whenever the classifier result lies outside {"1", "2"}, every
delivery surface answers with an error and never invokes the response
generator; in particular POST /query answers 500 with an error JSON body.
On the UI flow the classifier result is an `Option String` (`none` models the
exception path of `classify_query`), and any value other than `some "1"` /
`some "2"` yields an `st.error` message.  On the webhook the reply text is the
fixed error message (its 200 status is claim C10). -/
theorem claim_C4_invalid_classification_error (connOk : Bool) (t : Table)
    (query qt : String) (qtO : Option String) (phone : Option String)
    (gen : String → String → String) (hq : query ≠ "")
    (h1 : qt ≠ "1") (h2 : qt ≠ "2")
    (hO1 : qtO ≠ some "1") (hO2 : qtO ≠ some "2") (hp : pyTruthy phone = true) :
    (Twilioo.handle_query t query qt gen).outcome
        = (500, Twilioo.QueryJson.error "Invalid query classification")
    ∧ generateContexts (Twilioo.handle_query t query qt gen).calls = []
    ∧ (App.main connOk t query qtO gen).outcome.isUiError = true
    ∧ generateContexts (App.main connOk t query qtO gen).calls = []
    ∧ (Twilioo.twilio_webhook t phone (some query) qt gen).outcome
        = Twilioo.WebhookOutcome.twimlMessage "Unable to classify your query."
    ∧ generateContexts (Twilioo.twilio_webhook t phone (some query) qt gen).calls = [] := by
  refine ⟨?_, ?_, ?_, ?_, ?_, ?_⟩ <;>
  · cases hpt : pyTruthy qtO <;>
      simp [Twilioo.handle_query, App.main, Twilioo.twilio_webhook,
        App.AppOutcome.isUiError, generateContexts, pyTruthy_some,
        hq, h1, h2, hO1, hO2, hp, hpt]

theorem claim_C4_witness :
    (Twilioo.handle_query [] "hello" "3" (fun _ c => c)).outcome
        = (500, Twilioo.QueryJson.error "Invalid query classification")
    ∧ generateContexts (Twilioo.handle_query [] "hello" "3" (fun _ c => c)).calls = []
    ∧ (App.main true [] "hello" (some "3") (fun _ c => c)).outcome.isUiError = true
    ∧ generateContexts (App.main true [] "hello" (some "3") (fun _ c => c)).calls = []
    ∧ (Twilioo.twilio_webhook [] (some "+10000000000") (some "hello") "3"
        (fun _ c => c)).outcome
        = Twilioo.WebhookOutcome.twimlMessage "Unable to classify your query."
    ∧ generateContexts (Twilioo.twilio_webhook [] (some "+10000000000") (some "hello") "3"
        (fun _ c => c)).calls = [] :=
  claim_C4_invalid_classification_error true [] "hello" "3" (some "3")
    (some "+10000000000") (fun _ c => c) (by decide) (by decide) (by decide)
    (by decide) (by decide) (by decide)

/-- Claim C5: for every query classified as "2", the flow touches the room
store on no surface (it issues no SQL at all), and the reply is generated from
the fixed hotel-info constant alone — the outcome does not mention the table
contents, so it is the same for any table, including the empty one. -/
theorem claim_C5_category2_no_store_read (connOk : Bool) (t : Table) (query : String)
    (phone : Option String) (gen : String → String → String)
    (hq : query ≠ "") (hp : pyTruthy phone = true) :
    (Twilioo.handle_query t query "2" gen).sql = []
    ∧ (Twilioo.handle_query t query "2" gen).outcome
        = (200, Twilioo.QueryJson.response (gen query Twilioo.HOTEL_INFO))
    ∧ (App.main connOk t query (some "2") gen).sql = []
    ∧ (App.main connOk t query (some "2") gen).outcome
        = App.AppOutcome.uiResponse (gen query App.HOTEL_INFO)
    ∧ (Twilioo.twilio_webhook t phone (some query) "2" gen).sql = []
    ∧ (Twilioo.twilio_webhook t phone (some query) "2" gen).outcome
        = Twilioo.WebhookOutcome.twimlMessage (gen query Twilioo.HOTEL_INFO) := by
  refine ⟨?_, ?_, ?_, ?_, ?_, ?_⟩ <;>
    simp [Twilioo.handle_query, App.main, Twilioo.twilio_webhook,
      pyTruthy_some, hq, hp]

theorem claim_C5_witness :
    (Twilioo.handle_query [⟨"Deluxe", "Sea view"⟩] "Is there air conditioning?" "2"
        (fun _ _ => "reply")).sql = []
    ∧ (Twilioo.handle_query [⟨"Deluxe", "Sea view"⟩] "Is there air conditioning?" "2"
        (fun _ _ => "reply")).outcome = (200, Twilioo.QueryJson.response "reply")
    ∧ (App.main true [⟨"Deluxe", "Sea view"⟩] "Is there air conditioning?" (some "2")
        (fun _ _ => "reply")).sql = []
    ∧ (App.main true [⟨"Deluxe", "Sea view"⟩] "Is there air conditioning?" (some "2")
        (fun _ _ => "reply")).outcome = App.AppOutcome.uiResponse "reply"
    ∧ (Twilioo.twilio_webhook [⟨"Deluxe", "Sea view"⟩] (some "+10000000000")
        (some "Is there air conditioning?") "2" (fun _ _ => "reply")).sql = []
    ∧ (Twilioo.twilio_webhook [⟨"Deluxe", "Sea view"⟩] (some "+10000000000")
        (some "Is there air conditioning?") "2" (fun _ _ => "reply")).outcome
        = Twilioo.WebhookOutcome.twimlMessage "reply" :=
  claim_C5_category2_no_store_read true [⟨"Deluxe", "Sea view"⟩]
    "Is there air conditioning?" (some "+10000000000") (fun _ _ => "reply")
    (by decide) (by decide)

/-- Claim C6: handling any request on any surface leaves the room_data table
unchanged, and every SQL command the request flow issues is a read — for all
inputs, including invalid ones, so the statement carries no hypotheses. -/
theorem claim_C6_table_unchanged (connOk : Bool) (t : Table) (query qt : String)
    (qtO : Option String) (phone body : Option String)
    (gen : String → String → String) :
    (Twilioo.handle_query t query qt gen).table = t
    ∧ (Twilioo.handle_query t query qt gen).sql.all (fun c => !c.isWrite) = true
    ∧ (Twilioo.twilio_webhook t phone body qt gen).table = t
    ∧ (Twilioo.twilio_webhook t phone body qt gen).sql.all (fun c => !c.isWrite) = true
    ∧ (App.main connOk t query qtO gen).table = t
    ∧ (App.main connOk t query qtO gen).sql.all (fun c => !c.isWrite) = true := by
  refine ⟨?_, ?_, ?_, ?_, ?_, ?_⟩ <;>
  · simp only [Twilioo.handle_query, Twilioo.twilio_webhook, App.main,
      Twilioo.fetch_room_details, App.fetch_room_details]
    repeat' split
    all_goals simp [SqlCmd.applyTable, SqlCmd.isWrite]

/-- Claim C7: a POST /send_email request whose recipient field is missing
(`none`) or falsy (the empty string) is answered 400 with an error body, and
no email-sending call is made (the returned call list is empty). -/
theorem claim_C7_missing_email_rejected (email subject body : Option String)
    (postmarkStatus : Nat) (postmarkText : String)
    (he : pyTruthy email = false) :
    Postmark.handle_send_email email subject body postmarkStatus postmarkText
      = ([], 400, Postmark.EmailJson.fieldError "Email is required") := by
  simp [Postmark.handle_send_email, he]

theorem claim_C7_witness :
    Postmark.handle_send_email none (some "Hi") (some "Rooms") 200 ""
        = ([], 400, Postmark.EmailJson.fieldError "Email is required")
    ∧ Postmark.handle_send_email (some "") none none 200 ""
        = ([], 400, Postmark.EmailJson.fieldError "Email is required") :=
  ⟨claim_C7_missing_email_rejected none (some "Hi") (some "Rooms") 200 "" (by decide),
   claim_C7_missing_email_rejected (some "") none none 200 "" (by decide)⟩

/-- Claim C8: a POST /twilio_webhook request with `From` or `Body` missing or
empty is answered 400 with the fixed XML error envelope, with no SQL issued
and no external API call at all — so neither classifier nor generator runs. -/
theorem claim_C8_webhook_missing_fields (t : Table) (phone body : Option String)
    (qt : String) (gen : String → String → String)
    (h : pyTruthy phone = false ∨ pyTruthy body = false) :
    Twilioo.twilio_webhook t phone body qt gen
      = { table := t, sql := [], calls := []
          outcome := Twilioo.WebhookOutcome.xmlError
            "<Response><Message>Error: Phone number and message are required.</Message></Response>" }
    ∧ Twilioo.webhookStatus (Twilioo.twilio_webhook t phone body qt gen).outcome = 400 := by
  have hcond : (!pyTruthy phone || !pyTruthy body) = true := by
    rcases h with h | h <;> simp [h]
  refine ⟨?_, ?_⟩ <;> simp [Twilioo.twilio_webhook, hcond, Twilioo.webhookStatus]

theorem claim_C8_witness :
    Twilioo.twilio_webhook [] none (some "book a room") "1" (fun _ c => c)
      = { table := [], sql := [], calls := []
          outcome := Twilioo.WebhookOutcome.xmlError
            "<Response><Message>Error: Phone number and message are required.</Message></Response>" }
    ∧ Twilioo.webhookStatus (Twilioo.twilio_webhook [] none (some "book a room") "1"
        (fun _ c => c)).outcome = 400 :=
  claim_C8_webhook_missing_fields [] none (some "book a room") "1" (fun _ c => c)
    (Or.inl (by decide))

/-- Claim C9: a POST /send_email request with a recipient present is never
rejected for lacking subject or body: the handler answers 200 and calls the
mail API with the subject defaulted to "Room Availability at Thira Beach Home"
and the body defaulted to "Here are the details of the available rooms."
whenever the respective field is missing. -/
theorem claim_C9_subject_body_defaults (email : String) (subject body : Option String)
    (postmarkStatus : Nat) (postmarkText : String) (he : email ≠ "") :
    (Postmark.handle_send_email (some email) subject body postmarkStatus postmarkText).1
        = [ApiCall.postmarkSend email
            (subject.getD "Room Availability at Thira Beach Home")
            (body.getD "Here are the details of the available rooms.")]
    ∧ (Postmark.handle_send_email (some email) subject body postmarkStatus postmarkText).2.1
        = 200
    ∧ (Postmark.handle_send_email (some email) none none postmarkStatus postmarkText).1
        = [ApiCall.postmarkSend email "Room Availability at Thira Beach Home"
            "Here are the details of the available rooms."] := by
  refine ⟨?_, ?_, ?_⟩ <;>
    simp [Postmark.handle_send_email, Postmark.send_email, pyTruthy_some, he]

theorem claim_C9_witness :
    (Postmark.handle_send_email (some "guest@example.com") (some "Hello") none 200 "").1
        = [ApiCall.postmarkSend "guest@example.com" "Hello"
            "Here are the details of the available rooms."]
    ∧ (Postmark.handle_send_email (some "guest@example.com") (some "Hello") none 200 "").2.1
        = 200
    ∧ (Postmark.handle_send_email (some "guest@example.com") none none 200 "").1
        = [ApiCall.postmarkSend "guest@example.com" "Room Availability at Thira Beach Home"
            "Here are the details of the available rooms."] :=
  claim_C9_subject_body_defaults "guest@example.com" (some "Hello") none 200 ""
    (by decide)

/-- Claim C10: a POST /twilio_webhook request with both fields present whose
classifier result lies outside {"1", "2"} is answered with HTTP status 200
(not 4xx/5xx) and the fixed message text "Unable to classify your query.". -/
theorem claim_C10_webhook_unclassified (t : Table) (phone body : Option String)
    (qt : String) (gen : String → String → String)
    (hp : pyTruthy phone = true) (hb : pyTruthy body = true)
    (h1 : qt ≠ "1") (h2 : qt ≠ "2") :
    (Twilioo.twilio_webhook t phone body qt gen).outcome
        = Twilioo.WebhookOutcome.twimlMessage "Unable to classify your query."
    ∧ Twilioo.webhookStatus (Twilioo.twilio_webhook t phone body qt gen).outcome = 200 := by
  refine ⟨?_, ?_⟩ <;>
    simp [Twilioo.twilio_webhook, Twilioo.webhookStatus, hp, hb, h1, h2]

theorem claim_C10_witness :
    (Twilioo.twilio_webhook [] (some "+10000000000") (some "hmm") "unknown"
        (fun _ c => c)).outcome
        = Twilioo.WebhookOutcome.twimlMessage "Unable to classify your query."
    ∧ Twilioo.webhookStatus (Twilioo.twilio_webhook [] (some "+10000000000") (some "hmm")
        "unknown" (fun _ c => c)).outcome = 200 :=
  claim_C10_webhook_unclassified [] (some "+10000000000") (some "hmm") "unknown"
    (fun _ c => c) (by decide) (by decide) (by decide) (by decide)
